import Mathlib

/-!
Verification development for the fundflow_crm scoring and decision-synthesis
pipeline (backend/app/agents: comparable_case_agent.py, risk_scoring_agent.py,
underwriting_assistant_agent.py).

Modelling conventions:
- Python floats are modelled as rationals; Python int as Int/Nat.
- Python round(x, n) (round half to even) is modelled as exact rational
  rounding half to even, `roundTo`.
- math.sqrt appears only in the settlement standard deviation.  The embedding
  stores the population variance (a rational) and passes the standard
  deviation explicitly where the source consumes it; the predicate `IsStd`
  ties such a value to the variance, and over the reals it characterises
  Real.sqrt of the variance.
- datetime.now() is modelled by passing the current day number explicitly to
  the functions that read the clock in the source.
- dict .get with a default is modelled by Option plus getD; Python string
  dictionaries with fixed keys become structures.
-/

namespace FundFlow

/-- Round half to even of a rational (or of any linearly ordered field with a
floor), the model of the rounding mode of Python round(). -/
def rhe {α : Type} [LinearOrderedField α] [FloorRing α] (x : α) : ℤ :=
  let f := ⌊x⌋
  if x - f < 1/2 then f
  else if 1/2 < x - f then f + 1
  else if 2 ∣ f then f else f + 1

/-- Model of Python round(x, p): round to p decimal places, half to even. -/
def roundTo {α : Type} [LinearOrderedField α] [FloorRing α] (p : ℕ) (x : α) : α :=
  (rhe (x * (10:α) ^ p) : α) / (10:α) ^ p

/-- Mean of a list of rationals, sum divided by length (Python sum(l)/len(l)). -/
def listMean (l : List ℚ) : ℚ := l.sum / l.length

/-- Python sorted() on numbers: sort ascending. -/
def sortedAsc (l : List ℚ) : List ℚ := List.insertionSort (· ≤ ·) l

/-- Python min() on a nonempty list (0 on the empty list, never consulted). -/
def listMin : List ℚ → ℚ
  | [] => 0
  | x :: xs => xs.foldl min x

/-- Python max() on a nonempty list (0 on the empty list, never consulted). -/
def listMax : List ℚ → ℚ
  | [] => 0
  | x :: xs => xs.foldl max x

/-! ## Underwriting assistant agent (underwriting_assistant_agent.py) -/

/-- Law firm data consumed by _assess_law_firm_quality: the number of
employees (0 when the employees list is missing or empty, both falsy in the
source), and truthiness of the four contact fields. -/
structure LawFirmData where
  employees : ℕ
  phone : Bool
  email : Bool
  website : Bool
  address : Bool
deriving DecidableEq

/-- Count of truthy contact fields among phone, email, website, address
(_assess_law_firm_quality, contact_fields loop). -/
def contactCount (d : LawFirmData) : ℕ :=
  (if d.phone then 1 else 0) + (if d.email then 1 else 0) +
    (if d.website then 1 else 0) + (if d.address then 1 else 0)

/-- _assess_law_firm_quality: quality_score only.  none models law_firm_data
absent (None or empty, both falsy).  Base 50; +10 if more than 10 employees
else +5 if more than 5; +5 if at least 3 contact fields; +5 if a website;
capped with min(100, score). -/
def assessLawFirmQuality : Option LawFirmData → ℕ
  | none => 50
  | some d =>
      min 100 (50 +
        (if 10 < d.employees then 10 else if 5 < d.employees then 5 else 0) +
        (if 3 ≤ contactCount d then 5 else 0) +
        (if d.website then 5 else 0))

/-- _score_case_age: staircase on case age in days. -/
def scoreCaseAge (caseAgeDays : ℤ) : ℚ :=
  if caseAgeDays ≤ 180 then 90
  else if caseAgeDays ≤ 365 then 80
  else if caseAgeDays ≤ 730 then 60
  else if caseAgeDays ≤ 1095 then 40
  else 20

/-- Inputs of _generate_underwriting_recommendation: the five signals read
from the upstream assessment dictionaries. -/
structure DecisionInput where
  liabilityScore : ℚ
  riskScore : ℚ
  fundingRatioAcceptable : Bool
  lawFirmQualityScore : ℚ
  caseAgeDays : ℤ
deriving DecidableEq

/-- Weighted overall score of _generate_underwriting_recommendation:
liability 0.3, inverted risk 0.25, financial (100 or 30) 0.2,
law firm 0.15, case age staircase 0.1. -/
def overallScore (i : DecisionInput) : ℚ :=
  i.liabilityScore * 0.3 + (100 - i.riskScore) * 0.25 +
    (if i.fundingRatioAcceptable then (100:ℚ) else 30) * 0.2 +
    i.lawFirmQualityScore * 0.15 + scoreCaseAge i.caseAgeDays * 0.1

/-- The four decision labels of UnderwritingRecommendation.decision. -/
inductive UnderwritingChoice where
  | APPROVE
  | CONDITIONAL
  | NEEDS_REVIEW
  | DECLINE
deriving DecidableEq

/-- Decision and confidence thresholds of
_generate_underwriting_recommendation. -/
def decisionAndConfidence (i : DecisionInput) : UnderwritingChoice × ℚ :=
  if 75 ≤ overallScore i then (.APPROVE, 0.85)
  else if 60 ≤ overallScore i then (.CONDITIONAL, 0.70)
  else if 40 ≤ overallScore i then (.NEEDS_REVIEW, 0.60)
  else (.DECLINE, 0.80)

/-! ## Risk scoring agent (risk_scoring_agent.py) -/

/-- The incident date of a plaintiff record: absent, present but unparsable
(datetime.fromisoformat raises), or a valid date modelled as a day number. -/
inductive IncidentDate where
  | missing
  | invalid
  | onDay (day : ℤ)
deriving DecidableEq

/-- The fields of plaintiff_data read by _calculate_rule_based_risk.  The
Booleans model truthiness of the corresponding required fields. -/
structure PlaintiffRecord where
  caseType : Option String
  requestedAmount : ℚ
  incidentDate : IncidentDate
  firstName : Bool
  lastName : Bool
  phone : Bool
  email : Bool
  address : Bool
deriving DecidableEq

/-- The case_type_risk base table of RiskScoringAgent.risk_factors (0-1
weights), with default 0.5 for an unknown type. -/
def caseTypeWeight (name : String) : ℚ :=
  if name = "Auto Accident" then 0.3
  else if name = "Slip and Fall" then 0.5
  else if name = "Medical Malpractice" then 0.7
  else if name = "Workers Compensation" then 0.4
  else if name = "Product Liability" then 0.6
  else if name = "Other" then 0.5
  else 0.5

/-- case_type_risk score: table weight of caseType (default "Other") times
100. -/
def caseTypeRiskScore (r : PlaintiffRecord) : ℚ :=
  caseTypeWeight (r.caseType.getD "Other") * 100

/-- financial_risk staircase on requestedAmount, thresholds low 5000,
medium 25000, high 100000. -/
def financialRiskScore (r : PlaintiffRecord) : ℚ :=
  if r.requestedAmount = 0 then 70
  else if r.requestedAmount < 5000 then 30
  else if r.requestedAmount < 25000 then 50
  else if r.requestedAmount < 100000 then 70
  else 85

/-- time_risk: staircase on days since incident, computed in the source from
datetime.now(); the current day number is therefore an explicit argument
here.  Missing date scores 65, unparsable date 60. -/
def timeRiskScore (r : PlaintiffRecord) (today : ℤ) : ℚ :=
  match r.incidentDate with
  | .missing => 65
  | .invalid => 60
  | .onDay d =>
      let days := today - d
      if days < 30 then 40
      else if days < 180 then 30
      else if days < 365 then 50
      else if days < 730 then 70
      else 85

/-- Number of truthy fields among the six required fields firstName,
lastName, phone, email, address, caseType. -/
def providedFieldCount (r : PlaintiffRecord) : ℕ :=
  (if r.firstName then 1 else 0) + (if r.lastName then 1 else 0) +
    (if r.phone then 1 else 0) + (if r.email then 1 else 0) +
    (if r.address then 1 else 0) + (if r.caseType.isSome then 1 else 0)

/-- information_completeness_risk: (1 - provided/6) * 100. -/
def infoRiskScore (r : PlaintiffRecord) : ℚ :=
  (1 - (providedFieldCount r : ℚ) / 6) * 100

/-- The four rule based risk scores of _calculate_rule_based_risk, in the
insertion order of the factors dictionary: case type, financial, time,
information completeness. -/
def ruleBasedRiskScores (r : PlaintiffRecord) (today : ℤ) : List ℚ :=
  [caseTypeRiskScore r, financialRiskScore r, timeRiskScore r today,
    infoRiskScore r]

/-- _combine_risk_assessments, overall_score only: weighted combination of
the average external (AI) sub-scores (weight 0.6, defaulting to 50 when the
list is empty) and the average rule based sub-scores (weight 0.4, same
default), rounded to one decimal place by round(overall_score, 1). -/
def combineRiskOverall (extScores ruleScores : List ℚ) : ℚ :=
  let aiAverage := if extScores = [] then 50 else extScores.sum / extScores.length
  let ruleAverage := if ruleScores = [] then 50 else ruleScores.sum / ruleScores.length
  roundTo 1 (aiAverage * 0.6 + ruleAverage * 0.4)

/-! ## Comparable case agent: feature similarity (comparable_case_agent.py) -/

/-- The feature dictionary produced by _extract_case_features, restricted to
the keys read by _calculate_case_similarity.  Option models a key that may
be absent (dict .get returning None). -/
structure CaseFeatures where
  caseType : Option String
  injurySeverity : Option String
  liabilityClarity : Option String
  jurisdiction : Option String
  caseAgeDays : Option ℚ
  fundingAmount : Option ℚ
  lawFirmId : Option String
  damagesType : Finset String
deriving DecidableEq

/-- severity_map.get(features.get("injury_severity", "moderate"), 2):
minor 1, moderate 2, severe 3, catastrophic 4, anything else 2. -/
def severityOrdinal (s : Option String) : ℚ :=
  match s.getD "moderate" with
  | "minor" => 1
  | "moderate" => 2
  | "severe" => 3
  | "catastrophic" => 4
  | _ => 2

/-- liability_map.get(features.get("liability_clarity", "disputed"), 2):
clear 3, disputed 2, unclear 1, anything else 2. -/
def liabilityOrdinal (s : Option String) : ℚ :=
  match s.getD "disputed" with
  | "clear" => 3
  | "disputed" => 2
  | "unclear" => 1
  | _ => 2

/-- Per-factor similarity: case type, 1.0 on equality else 0.0. -/
def simCaseType (t h : CaseFeatures) : ℚ :=
  if t.caseType = h.caseType then 1 else 0

/-- Per-factor similarity: injury severity, max(0, 1 - diff/3). -/
def simSeverity (t h : CaseFeatures) : ℚ :=
  max 0 (1 - |severityOrdinal t.injurySeverity - severityOrdinal h.injurySeverity| / 3)

/-- Per-factor similarity: liability clarity, max(0, 1 - diff/2). -/
def simLiability (t h : CaseFeatures) : ℚ :=
  max 0 (1 - |liabilityOrdinal t.liabilityClarity - liabilityOrdinal h.liabilityClarity| / 2)

/-- Per-factor similarity: jurisdiction, 1.0 on equality else 0.3. -/
def simJurisdiction (t h : CaseFeatures) : ℚ :=
  if t.jurisdiction = h.jurisdiction then 1 else 0.3

/-- Per-factor similarity: case age, max(0, 1 - diff/1095), ages defaulting
to 365 days. -/
def simCaseAge (t h : CaseFeatures) : ℚ :=
  max 0 (1 - |t.caseAgeDays.getD 365 - h.caseAgeDays.getD 365| / 1095)

/-- Per-factor similarity: funding amount, min/max ratio of the amounts
floored at 1. -/
def simFunding (t h : CaseFeatures) : ℚ :=
  let a := max 1 (t.fundingAmount.getD 1)
  let b := max 1 (h.fundingAmount.getD 1)
  min a b / max a b

/-- Per-factor similarity: law firm, 1.0 on equal ids else 0.5. -/
def simLawFirm (t h : CaseFeatures) : ℚ :=
  if t.lawFirmId = h.lawFirmId then 1 else 0.5

/-- Per-factor similarity: damages type, Jaccard index of the two sets, 0.5
when both sets are empty. -/
def simDamages (t h : CaseFeatures) : ℚ :=
  if t.damagesType = ∅ ∧ h.damagesType = ∅ then 0.5
  else ((t.damagesType ∩ h.damagesType).card : ℚ) / ((t.damagesType ∪ h.damagesType).card : ℚ)

/-- The similarity weight values of ComparableCaseAgent.similarity_weights, in
insertion order: case_type, injury_severity, liability_clarity, jurisdiction,
case_age, funding_amount, law_firm_quality, damages_type. -/
def similarityWeights : List ℚ :=
  [0.25, 0.20, 0.15, 0.10, 0.10, 0.10, 0.05, 0.05]

/-- _calculate_case_similarity: the weighted sum of the eight per-factor
similarities, rounded to three decimal places by round(overall, 3). -/
def caseSimilarity (t h : CaseFeatures) : ℚ :=
  roundTo 3
    (simCaseType t h * 0.25 + simSeverity t h * 0.20 + simLiability t h * 0.15 +
      simJurisdiction t h * 0.10 + simCaseAge t h * 0.10 + simFunding t h * 0.10 +
      simLawFirm t h * 0.05 + simDamages t h * 0.05)

/-- _calculate_case_age, with the clock passed explicitly: day difference for
a valid date, 365 for a missing date and 365 when parsing raises. -/
def calculateCaseAge (incident : IncidentDate) (today : ℤ) : ℤ :=
  match incident with
  | .missing => 365
  | .invalid => 365
  | .onDay d => today - d

/-! ## Comparable case agent: ranking (find_comparable_cases) -/

/-- The ComparableCase dataclass of comparable_case_agent.py.  Its fields are
exactly the nine dataclass fields; in particular there is no case_age_days
field, which matters for the recency bonus below. -/
structure ComparableCase where
  caseId : String
  caseType : String
  settlementAmount : ℚ
  fundingAmount : ℚ
  caseDurationMonths : ℚ
  outcome : String
  jurisdiction : String
  keyFactors : List String
  similarityScore : ℚ
deriving DecidableEq

/-- One historical case as consumed by find_comparable_cases: the dictionary
fields read when building a ComparableCase (with the .get defaults already
applied), together with the features extracted for it. -/
structure HistoricalEntry where
  id : String
  caseType : String
  settlementAmount : ℚ
  fundingAmount : ℚ
  durationMonths : ℚ
  outcome : String
  jurisdiction : String
  keyFactors : List String
  features : CaseFeatures
deriving DecidableEq

/-- Construction of a ComparableCase from a historical case and its
similarity score (find_comparable_cases, ComparableCase(...) call). -/
def buildComparable (h : HistoricalEntry) (score : ℚ) : ComparableCase :=
  ⟨h.id, h.caseType, h.settlementAmount, h.fundingAmount, h.durationMonths,
    h.outcome, h.jurisdiction, h.keyFactors, score⟩

/-- Default min_similarity of find_comparable_cases. -/
def defaultMinSimilarity : ℚ := 0.3

/-- Default max_results of find_comparable_cases. -/
def defaultMaxResults : ℕ := 10

/-- find_comparable_cases: empty corpus gives []; otherwise keep the
candidates whose similarity is at least min_similarity (in corpus order),
sort by similarity score descending with the stable sort of Python
(insertion sort with a non-strict comparison is stable the same way), and
keep the first max_results. -/
def findComparableCases (target : CaseFeatures) (hist : List HistoricalEntry)
    (minSim : ℚ) (maxResults : ℕ) : List ComparableCase :=
  if hist = [] then []
  else
    ((hist.filterMap (fun h =>
        let s := caseSimilarity target h.features
        if minSim ≤ s then some (buildComparable h s) else none)).insertionSort
      (fun a b => b.similarityScore ≤ a.similarityScore)).take maxResults

/-! ## Comparable case agent: outcome statistics -/

/-- The settlement_statistics dictionary of analyze_comparable_case_outcomes.
The source stores the standard deviation; the embedding stores the population
variance (the radicand), a rational; `IsStd` below ties the standard
deviation to it. -/
structure SettlementStats where
  mean : ℚ
  median : ℚ
  variance : ℚ
  sMin : ℚ
  sMax : ℚ
deriving DecidableEq

/-- std is the standard deviation belonging to stats s: nonnegative with
square equal to the variance.  Over the reals this says exactly
std = Real.sqrt s.variance. -/
def IsStd {α : Type} [LinearOrderedField α] (s : SettlementStats) (std : α) : Prop :=
  0 ≤ std ∧ std ^ 2 = (s.variance : α)

/-- The settlements list of analyze_comparable_case_outcomes: settlement
amounts of the comparables that are strictly positive, in list order. -/
def positiveSettlements (cases : List ComparableCase) : List ℚ :=
  (cases.filter (fun c => 0 < c.settlementAmount)).map (·.settlementAmount)

/-- settlement_stats of analyze_comparable_case_outcomes: none when no
comparable has a positive settlement (the source leaves the dict empty),
otherwise mean sum/len, median sorted[len // 2], population variance
(sum of squared deviations divided by len), min and max. -/
def settlementStatsOf (cases : List ComparableCase) : Option SettlementStats :=
  let s := positiveSettlements cases
  if s = [] then none
  else
    -- fields: mean, median, variance, min, max
    some
      ⟨listMean s,
        (sortedAsc s).getD (s.length / 2) 0,
        (s.map (fun x => (x - listMean s) ^ 2)).sum / s.length,
        listMin s,
        listMax s⟩

/-- The three confidence grades of _calculate_prediction_confidence. -/
inductive ConfidenceGrade where
  | low
  | medium
  | high
deriving DecidableEq

/-- hasattr(case, "case_age_days") on a ComparableCase: always false, since
the dataclass has no such field and nothing in the repository sets one. -/
def hasCaseAgeDaysAttr (_ : ComparableCase) : Bool := false

/-- The confidence score of _calculate_prediction_confidence: case count
bonus (30/20/10 for at least 10/5/3), average similarity bonus (30/20/10 for
at least 0.7/0.5/0.3), coefficient of variation bonus guarded by std > 0
(equivalently variance > 0; the comparisons std/mean with 0.5 and 1.0 are
stated on the variance, equivalent for the positive means this pipeline
produces, see cvGuard_sqrt_iff), and the recency bonus whose hasattr test
never succeeds. -/
def confidenceScore (cases : List ComparableCase) (stats : Option SettlementStats) : ℚ :=
  (if 10 ≤ cases.length then (30:ℚ) else if 5 ≤ cases.length then 20
    else if 3 ≤ cases.length then 10 else 0) +
  (let avgSim := (cases.map (·.similarityScore)).sum / cases.length
    if 0.7 ≤ avgSim then (30:ℚ) else if 0.5 ≤ avgSim then 20
    else if 0.3 ≤ avgSim then 10 else 0) +
  (match stats with
    | none => 0
    | some s =>
        if 0 < s.variance then
          if 4 * s.variance ≤ s.mean ^ 2 then (25:ℚ)
          else if s.variance ≤ s.mean ^ 2 then 15 else 5
        else 0) +
  (let recent := cases.countP hasCaseAgeDaysAttr
    if (cases.length : ℚ) * 0.7 ≤ (recent : ℚ) then (15:ℚ) else 0)

/-- _calculate_prediction_confidence: maps the score to a grade; on an empty
list the average similarity divides by zero, the exception is caught and the
result is low. -/
def predictionConfidenceGrade (cases : List ComparableCase)
    (stats : Option SettlementStats) : ConfidenceGrade :=
  if cases = [] then .low
  else if 80 ≤ confidenceScore cases stats then .high
  else if 50 ≤ confidenceScore cases stats then .medium
  else .low

/-- The outcome analysis dictionary of analyze_comparable_case_outcomes,
restricted to the numeric fields the valuation consumes (the trends field is
produced by the external generative service and carries no score). -/
structure OutcomeAnalysis where
  predictionConfidence : ConfidenceGrade
  stats : Option SettlementStats
  successProbability : ℚ
  averageDurationMonths : ℚ
  caseCount : ℕ
deriving DecidableEq

/-- The successful outcome labels of analyze_comparable_case_outcomes. -/
def successfulOutcomes : List String := ["settled", "judgment_plaintiff", "favorable"]

/-- analyze_comparable_case_outcomes: on the empty list the fixed no-data
dictionary (confidence low, success probability 0.5, average duration 18);
otherwise the settlement statistics, success probability as the fraction of
outcomes whose lowercase label is successful rounded to 3 decimals, average
of the positive durations (default 18) rounded to 1 decimal, and the
prediction confidence grade. -/
def analyzeOutcomes (cases : List ComparableCase) : OutcomeAnalysis :=
  -- fields: prediction confidence, stats, success probability,
  -- average duration months, case count
  if cases = [] then ⟨.low, none, 0.5, 18, 0⟩
  else
    let durations := (cases.filter (fun c => 0 < c.caseDurationMonths)).map (·.caseDurationMonths)
    let outcomes := cases.map (·.outcome)
    let successful := outcomes.countP (fun o => successfulOutcomes.contains o.toLower)
    ⟨predictionConfidenceGrade cases (settlementStatsOf cases),
      settlementStatsOf cases,
      roundTo 3 (if outcomes = ([] : List String) then (0.5 : ℚ)
        else (successful : ℚ) / outcomes.length),
      roundTo 1 (if durations = ([] : List ℚ) then (18 : ℚ)
        else durations.sum / durations.length),
      cases.length⟩

/-- estimated_settlement_range: {0,0} when the statistics are absent,
otherwise [max(0, mean - std), mean + std], with the standard deviation
passed explicitly (the source takes math.sqrt of the variance). -/
def analysisRange {α : Type} [LinearOrderedField α] (o : OutcomeAnalysis) (std : α) : α × α :=
  match o.stats with
  | none => (0, 0)
  | some s => (max 0 ((s.mean : α) - std), (s.mean : α) + std)

/-! ## Comparable case agent: risk adjusted valuation -/

/-- case_type_averages of _calculate_risk_adjusted_valuation, default 50000
for a type not in the table. -/
def caseTypeAverage (name : String) : ℚ :=
  if name = "Auto Accident" then 45000
  else if name = "Slip and Fall" then 35000
  else if name = "Medical Malpractice" then 125000
  else if name = "Workers Compensation" then 25000
  else if name = "Product Liability" then 85000
  else 50000

/-- comparable_mean of _calculate_risk_adjusted_valuation: the midpoint of
the estimated settlement range. -/
def comparableMean {α : Type} [LinearOrderedField α] (o : OutcomeAnalysis) (std : α) : α :=
  ((analysisRange o std).1 + (analysisRange o std).2) / 2

/-- ai_mean of _calculate_risk_adjusted_valuation: midpoint of the range
estimated by the external generative analysis. -/
def aiMean {α : Type} [LinearOrderedField α] (aiLow aiHigh : α) : α :=
  (aiLow + aiHigh) / 2

/-- estimated_value before risk adjustment: 0.6/0.4 blend when both means
are positive, the positive one when only one is, and the per case type
default (target case type defaulting to "Auto Accident" when absent)
otherwise. -/
def baseEstimate {α : Type} [LinearOrderedField α] (o : OutcomeAnalysis) (std : α)
    (aiLow aiHigh : α) (targetCaseType : Option String) : α :=
  if 0 < comparableMean o std ∧ 0 < aiMean aiLow aiHigh then
    comparableMean o std * (6/10) + aiMean aiLow aiHigh * (4/10)
  else if 0 < comparableMean o std then comparableMean o std
  else if 0 < aiMean aiLow aiHigh then aiMean aiLow aiHigh
  else (caseTypeAverage (targetCaseType.getD "Auto Accident") : α)

/-- The case strength adjustment of _calculate_risk_adjusted_valuation:
1.1 for "stronger", 0.9 for "weaker", 1.0 otherwise. -/
def strengthMultiplier (relativeStrength : String) : ℚ :=
  if relativeStrength = "stronger" then 1.1
  else if relativeStrength = "weaker" then 0.9
  else 1

/-- risk_multiplier: the success probability of the outcome analysis times
the case strength adjustment. -/
def riskMultiplier (o : OutcomeAnalysis) (relativeStrength : String) : ℚ :=
  o.successProbability * strengthMultiplier relativeStrength

/-- risk_adjusted_value: the base estimate times the risk multiplier. -/
def riskAdjustedValue {α : Type} [LinearOrderedField α] (o : OutcomeAnalysis) (std : α)
    (aiLow aiHigh : α) (relativeStrength : String) (targetCaseType : Option String) : α :=
  baseEstimate o std aiLow aiHigh targetCaseType * (riskMultiplier o relativeStrength : α)

/-- confidence_range: the fixed band [value * 0.7, value * 1.3] around the
(unrounded) risk adjusted value. -/
def confidenceRange {α : Type} [LinearOrderedField α] (o : OutcomeAnalysis) (std : α)
    (aiLow aiHigh : α) (relativeStrength : String) (targetCaseType : Option String) : α × α :=
  (riskAdjustedValue o std aiLow aiHigh relativeStrength targetCaseType * (7/10),
    riskAdjustedValue o std aiLow aiHigh relativeStrength targetCaseType * (13/10))

/-- estimated_value as returned: the risk adjusted value rounded to two
decimal places. -/
def valuationEstimatedValue {α : Type} [LinearOrderedField α] [FloorRing α]
    (o : OutcomeAnalysis) (std : α) (aiLow aiHigh : α) (relativeStrength : String)
    (targetCaseType : Option String) : α :=
  roundTo 2 (riskAdjustedValue o std aiLow aiHigh relativeStrength targetCaseType)

/-- The valuation report of generate_case_valuation_report, reduced to the
valuation summary: the no-data object (valuation_summary a fixed string and
confidence "none") on an empty comparable list, otherwise the estimated
value, confidence range and risk adjustment of
_calculate_risk_adjusted_valuation. -/
inductive ValuationReport (α : Type) where
  | noData
  | summary (estimatedValue confLow confHigh : α) (riskAdjustment : ℚ)
deriving DecidableEq

/-- generate_case_valuation_report, reduced to the fields above.  The inputs
std, aiLow, aiHigh, relativeStrength stand for the settlement standard
deviation and the response of the external generative valuation analysis. -/
def generateCaseValuationReport {α : Type} [LinearOrderedField α] [FloorRing α]
    (targetCaseType : Option String) (comparables : List ComparableCase) (std : α)
    (aiLow aiHigh : α) (relativeStrength : String) : ValuationReport α :=
  if comparables = [] then .noData
  else
    let o := analyzeOutcomes comparables
    .summary (valuationEstimatedValue o std aiLow aiHigh relativeStrength targetCaseType)
      (confidenceRange o std aiLow aiHigh relativeStrength targetCaseType).1
      (confidenceRange o std aiLow aiHigh relativeStrength targetCaseType).2
      (roundTo 3 (riskMultiplier o relativeStrength))

/-- The estimated value carried by a valuation report, none for the no-data
object. -/
def reportValue {α : Type} : ValuationReport α → Option α
  | .noData => none
  | .summary v _ _ _ => some v

/-! ## Concrete fixtures used by the example theorems -/

/-- A fully specified feature set: every field present, damages nonempty. -/
def exFeatures : CaseFeatures :=
  ⟨some "Auto Accident", some "moderate", some "clear", some "CA", some 100,
    some 5000, some "firm1", {"medical"}⟩

/-- Historical case with settlement 100 and the features above. -/
def exEntryLow : HistoricalEntry :=
  ⟨"h1", "Auto Accident", 100, 0, 10, "settled", "CA", [], exFeatures⟩

/-- Historical case with settlement 200 and the features above. -/
def exEntryHigh : HistoricalEntry :=
  ⟨"h2", "Auto Accident", 200, 0, 10, "settled", "CA", [], exFeatures⟩

/-- A comparable case with the given id and settlement, similarity 0.8,
duration 12, outcome settled. -/
def mkComp (id : String) (amt : ℚ) : ComparableCase :=
  ⟨id, "Auto Accident", amt, 0, 12, "settled", "CA", [], 0.8⟩

/-- Twelve comparables, settlements six of 3000 and six of 7000, each with
similarity 0.8: mean 5000, population std 2000, coefficient of variation
0.4. -/
def twelveComparables : List ComparableCase :=
  [mkComp "c1" 3000, mkComp "c2" 3000, mkComp "c3" 3000, mkComp "c4" 3000,
    mkComp "c5" 3000, mkComp "c6" 3000, mkComp "c7" 7000, mkComp "c8" 7000,
    mkComp "c9" 7000, mkComp "c10" 7000, mkComp "c11" 7000, mkComp "c12" 7000]

/-- Three comparables with settlements 10000, 20000, 30000. -/
def threeComparables : List ComparableCase :=
  [mkComp "c1" 10000, mkComp "c2" 20000, mkComp "c3" 30000]

/-- Two comparables with settlements 10000 and 20000. -/
def twoComparables : List ComparableCase :=
  [mkComp "c1" 10000, mkComp "c2" 20000]

/-- Five comparables with settlements 1, 1, 1, 1, 101: mean 21, population
variance 1600, so the standard deviation 40 exceeds the mean. -/
def fiveComparables : List ComparableCase :=
  [mkComp "c1" 1, mkComp "c2" 1, mkComp "c3" 1, mkComp "c4" 1, mkComp "c5" 101]

/-! ## Helper lemmas -/

theorem rhe_of_lt_half {α : Type} [LinearOrderedField α] [FloorRing α] (x : α) (k : ℤ)
    (h1 : (k : α) ≤ x) (h2 : x < k + 1/2) : rhe x = k := by
  have hf : ⌊x⌋ = k := Int.floor_eq_iff.mpr ⟨h1, by linarith⟩
  simp only [rhe, hf]
  rw [if_pos (by linarith)]

theorem rhe_of_gt_half {α : Type} [LinearOrderedField α] [FloorRing α] (x : α) (k : ℤ)
    (h1 : (k : α) + 1/2 < x) (h2 : x < k + 1) : rhe x = k + 1 := by
  have hf : ⌊x⌋ = k := Int.floor_eq_iff.mpr ⟨by linarith, by linarith⟩
  simp only [rhe, hf]
  rw [if_neg (by linarith), if_pos (by linarith)]

theorem rhe_intCast {α : Type} [LinearOrderedField α] [FloorRing α] (k : ℤ) :
    rhe (k : α) = k := by
  simpa using rhe_of_lt_half (k : α) k le_rfl (by norm_num)

theorem roundTo_of_int {α : Type} [LinearOrderedField α] [FloorRing α] (p : ℕ) (x : α)
    (k : ℤ) (h : x * (10:α) ^ p = (k : α)) : roundTo p x = (k : α) / (10:α) ^ p := by
  simp only [roundTo, h, rhe_intCast]

theorem roundTo_eq_div {α : Type} [LinearOrderedField α] [FloorRing α] (p : ℕ) (x : α)
    (k : ℤ) (h1 : (k : α) ≤ x * (10:α) ^ p) (h2 : x * (10:α) ^ p < k + 1/2) :
    roundTo p x = (k : α) / (10:α) ^ p := by
  simp only [roundTo, rhe_of_lt_half (x * (10:α) ^ p) k h1 h2]

theorem roundTo_eq_div_succ {α : Type} [LinearOrderedField α] [FloorRing α] (p : ℕ) (x : α)
    (k : ℤ) (h1 : (k : α) + 1/2 < x * (10:α) ^ p) (h2 : x * (10:α) ^ p < k + 1) :
    roundTo p x = ((k : α) + 1) / (10:α) ^ p := by
  simp only [roundTo, rhe_of_gt_half (x * (10:α) ^ p) k h1 h2]
  push_cast
  ring

/-- Faithfulness of the variance-based coefficient of variation guard in
confidenceScore: for a positive mean (always the case for statistics over
positive settlements) and the standard deviation Real.sqrt of the variance,
the source comparisons std > 0, std/mean at most 0.5 and std/mean at most 1
are exactly the variance comparisons used in the embedding. -/
theorem cvGuard_sqrt_iff (m v : ℚ) (hm : 0 < m) (_hv : 0 ≤ v) :
    (0 < Real.sqrt (v : ℝ) ↔ 0 < v) ∧
    (Real.sqrt (v : ℝ) / (m : ℝ) ≤ 1/2 ↔ 4 * v ≤ m ^ 2) ∧
    (Real.sqrt (v : ℝ) / (m : ℝ) ≤ 1 ↔ v ≤ m ^ 2) := by
  have hm' : (0 : ℝ) < (m : ℝ) := by exact_mod_cast hm
  refine ⟨?_, ?_, ?_⟩
  · rw [Real.sqrt_pos]
    exact ⟨fun h => by exact_mod_cast h, fun h => by exact_mod_cast h⟩
  · rw [div_le_iff₀ hm', show (1:ℝ)/2 * (m : ℝ) = (m : ℝ)/2 by ring,
      Real.sqrt_le_left (by linarith)]
    constructor
    · intro h
      rw [show ((m : ℝ)/2) ^ 2 = (m : ℝ)^2/4 by ring] at h
      have h4 : 4 * (v : ℝ) ≤ (m : ℝ) ^ 2 := by linarith
      exact_mod_cast h4
    · intro h
      have h' : 4 * (v : ℝ) ≤ (m : ℝ) ^ 2 := by exact_mod_cast h
      rw [show ((m : ℝ)/2) ^ 2 = (m : ℝ)^2/4 by ring]
      linarith
  · rw [div_le_one hm', Real.sqrt_le_left (by linarith)]
    exact ⟨fun h => by exact_mod_cast h, fun h => by exact_mod_cast h⟩

/-- Every per-factor similarity of a feature set against itself is 1, except
possibly damages, which is 1 exactly when the damages set is nonempty. -/
theorem perFactor_self (t : CaseFeatures) :
    simCaseType t t = 1 ∧ simSeverity t t = 1 ∧ simLiability t t = 1 ∧
      simJurisdiction t t = 1 ∧ simCaseAge t t = 1 ∧ simFunding t t = 1 ∧
      simLawFirm t t = 1 ∧ (t.damagesType ≠ ∅ → simDamages t t = 1) := by
  refine ⟨by simp [simCaseType], by simp [simSeverity], by simp [simLiability],
    by simp [simJurisdiction], by simp [simCaseAge], ?_, by simp [simLawFirm], fun h => ?_⟩
  · have hpos : (0:ℚ) < max 1 (t.fundingAmount.getD 1) :=
      lt_of_lt_of_le one_pos (le_max_left _ _)
    simp only [simFunding, min_self, max_self]
    exact div_self (ne_of_gt hpos)
  · have hcard : (t.damagesType.card : ℚ) ≠ 0 := by
      exact_mod_cast fun hc => h (Finset.card_eq_zero.mp hc)
    simp only [simDamages, Finset.inter_self, Finset.union_self]
    rw [if_neg (by exact fun hc => h hc.1)]
    exact div_self hcard

/-- The weighted similarity of a feature set with itself is exactly 1 when
the damages set is nonempty (the eight factors are each 1 and the weights
sum to 1; round(1.0, 3) is 1.0). -/
theorem caseSimilarity_self (t : CaseFeatures) (h : t.damagesType ≠ ∅) :
    caseSimilarity t t = 1 := by
  obtain ⟨h1, h2, h3, h4, h5, h6, h7, h8⟩ := perFactor_self t
  rw [caseSimilarity, h1, h2, h3, h4, h5, h6, h7, h8 h]
  have : (1:ℚ) * 0.25 + 1 * 0.20 + 1 * 0.15 + 1 * 0.10 + 1 * 0.10 + 1 * 0.10 +
      1 * 0.05 + 1 * 0.05 = 1 := by norm_num
  rw [this, roundTo_of_int 3 (1 : ℚ) 1000 (by norm_num)]
  norm_num

/-- Evaluation of find_comparable_cases on a two-entry corpus whose entries
both have the target features (similarity 1): both pass the threshold and
the stable sort keeps the corpus order. -/
theorem find_two_eval :
    findComparableCases exFeatures [exEntryLow, exEntryHigh] defaultMinSimilarity
        defaultMaxResults =
      [buildComparable exEntryLow 1, buildComparable exEntryHigh 1] := by
  have hs : caseSimilarity exFeatures exFeatures = 1 := caseSimilarity_self _ (by decide)
  simp only [findComparableCases, defaultMinSimilarity, defaultMaxResults]
  rw [if_neg (by simp)]
  have hf : ([exEntryLow, exEntryHigh].filterMap (fun h =>
      let s := caseSimilarity exFeatures h.features
      if (0.3:ℚ) ≤ s then some (buildComparable h s) else none)) =
      [buildComparable exEntryLow 1, buildComparable exEntryHigh 1] := by
    simp only [List.filterMap_cons, List.filterMap_nil,
      show exEntryLow.features = exFeatures from rfl,
      show exEntryHigh.features = exFeatures from rfl, hs]
    norm_num
  rw [hf]
  have hr : (1:ℚ) ≤ 1 := le_rfl
  simp [List.insertionSort, List.orderedInsert, buildComparable]

/-! ## Claim theorems -/

/-- Claim C1: the underwriting engine computes the weighted overall score
liability 0.30, inverted risk 0.25, financial gate (100 or 30) 0.20, law firm
0.15, case age staircase (90/80/60/40/20) 0.10, and returns APPROVE with
confidence 0.85 at overall at least 75, CONDITIONAL 0.70 at 60, NEEDS_REVIEW
0.60 at 40, DECLINE 0.80 below; the example input (80, 20, acceptable, 70,
100 days) scores 83.5 and is approved with confidence 0.85. -/
theorem claim_C1_underwriting_decision :
    (∀ i : DecisionInput,
      overallScore i =
        i.liabilityScore * 0.3 + (100 - i.riskScore) * 0.25 +
          (if i.fundingRatioAcceptable then (100:ℚ) else 30) * 0.2 +
          i.lawFirmQualityScore * 0.15 + scoreCaseAge i.caseAgeDays * 0.1) ∧
    (∀ d : ℤ,
      (d ≤ 180 → scoreCaseAge d = 90) ∧
      (180 < d → d ≤ 365 → scoreCaseAge d = 80) ∧
      (365 < d → d ≤ 730 → scoreCaseAge d = 60) ∧
      (730 < d → d ≤ 1095 → scoreCaseAge d = 40) ∧
      (1095 < d → scoreCaseAge d = 20)) ∧
    (∀ i : DecisionInput,
      (75 ≤ overallScore i → decisionAndConfidence i = (.APPROVE, 0.85)) ∧
      (60 ≤ overallScore i → overallScore i < 75 →
        decisionAndConfidence i = (.CONDITIONAL, 0.70)) ∧
      (40 ≤ overallScore i → overallScore i < 60 →
        decisionAndConfidence i = (.NEEDS_REVIEW, 0.60)) ∧
      (overallScore i < 40 → decisionAndConfidence i = (.DECLINE, 0.80))) ∧
    (overallScore ⟨80, 20, true, 70, 100⟩ = 83.5 ∧
      decisionAndConfidence ⟨80, 20, true, 70, 100⟩ = (.APPROVE, 0.85)) := by
  refine ⟨fun i => rfl, ?_, ?_, ?_, ?_⟩
  · intro d
    refine ⟨fun h => ?_, fun h1 h2 => ?_, fun h1 h2 => ?_, fun h1 h2 => ?_, fun h => ?_⟩ <;>
      · simp only [scoreCaseAge]
        split_ifs <;> first | rfl | omega
  · intro i
    refine ⟨fun h => ?_, fun h1 h2 => ?_, fun h1 h2 => ?_, fun h => ?_⟩ <;>
      · simp only [decisionAndConfidence]
        split_ifs <;> first | rfl | linarith
  · norm_num [overallScore, scoreCaseAge]
  · norm_num [decisionAndConfidence, overallScore, scoreCaseAge]

theorem claim_C1_underwriting_decision_witness :
    (75 ≤ overallScore ⟨80, 20, true, 70, 100⟩ ∧
      decisionAndConfidence ⟨80, 20, true, 70, 100⟩ = (.APPROVE, 0.85)) ∧
      scoreCaseAge 100 = 90 :=
  ⟨⟨by norm_num [overallScore, scoreCaseAge],
    (claim_C1_underwriting_decision.2.2.1 ⟨80, 20, true, 70, 100⟩).1
      (by norm_num [overallScore, scoreCaseAge])⟩,
    (claim_C1_underwriting_decision.2.1 100).1 (by norm_num)⟩

/-- Claim C10: for every law firm input, including absent data, the quality
score lies in [50, 100]; absent data yields exactly 50. -/
theorem claim_C10_law_firm_quality_bounds :
    (∀ d : Option LawFirmData,
      50 ≤ assessLawFirmQuality d ∧ assessLawFirmQuality d ≤ 100) ∧
    assessLawFirmQuality none = 50 := by
  refine ⟨fun d => ?_, rfl⟩
  cases d with
  | none => simp [assessLawFirmQuality]
  | some d =>
      simp only [assessLawFirmQuality]
      constructor
      · refine le_min (by norm_num) ?_
        exact Nat.le_add_right_of_le (Nat.le_add_right_of_le (Nat.le_add_right_of_le le_rfl))
      · exact min_le_left _ _

/-- Claim C2: the similarity of a fully specified feature set against itself
is exactly 1.0 after rounding to three decimals; the eight factor weights
(0.25, 0.20, 0.15, 0.10, 0.10, 0.10, 0.05, 0.05) sum to exactly 1.0 and
every per-factor similarity of equal values is 1.0 (damages needs a nonempty
set, which full specification provides). -/
theorem claim_C2_self_similarity :
    (∀ t : CaseFeatures, t.damagesType ≠ ∅ → caseSimilarity t t = 1) ∧
    similarityWeights.sum = 1 ∧
    (∀ t : CaseFeatures, t.damagesType ≠ ∅ →
      simCaseType t t = 1 ∧ simSeverity t t = 1 ∧ simLiability t t = 1 ∧
        simJurisdiction t t = 1 ∧ simCaseAge t t = 1 ∧ simFunding t t = 1 ∧
        simLawFirm t t = 1 ∧ simDamages t t = 1) := by
  refine ⟨fun t h => caseSimilarity_self t h, by norm_num [similarityWeights], fun t h => ?_⟩
  obtain ⟨h1, h2, h3, h4, h5, h6, h7, h8⟩ := perFactor_self t
  exact ⟨h1, h2, h3, h4, h5, h6, h7, h8 h⟩

theorem claim_C2_self_similarity_witness :
    caseSimilarity exFeatures exFeatures = 1 :=
  claim_C2_self_similarity.1 exFeatures (by decide)

/-- Claim C7, counterexample: two historical cases with equal similarity
scores are returned in corpus order (stable sort), not settlement descending;
here the lower settlement 100 precedes the higher settlement 200. -/
theorem claim_C7_ranking_counterexample :
    findComparableCases exFeatures [exEntryLow, exEntryHigh] defaultMinSimilarity
        defaultMaxResults ≠
      [buildComparable exEntryHigh 1, buildComparable exEntryLow 1] ∧
    findComparableCases exFeatures [exEntryLow, exEntryHigh] defaultMinSimilarity
        defaultMaxResults =
      [buildComparable exEntryLow 1, buildComparable exEntryHigh 1] ∧
    (buildComparable exEntryLow 1).similarityScore =
      (buildComparable exEntryHigh 1).similarityScore ∧
    (buildComparable exEntryLow 1).settlementAmount <
      (buildComparable exEntryHigh 1).settlementAmount := by
  refine ⟨?_, find_two_eval, rfl, by norm_num [buildComparable, exEntryLow, exEntryHigh]⟩
  rw [find_two_eval]
  simp [buildComparable, exEntryLow, exEntryHigh]

/-- Claim C7, amended: the returned list is ordered by similarity score
descending, with ties kept in corpus order by the stable sort (no settlement
tie-break in the source); it contains only candidates at or above the
minimum similarity threshold (default 0.3) and at most the top N entries
(default 10). -/
theorem claim_C7_ranking_amended (t : CaseFeatures) (hist : List HistoricalEntry)
    (minSim : ℚ) (maxR : ℕ) :
    List.Sorted (fun a b : ComparableCase => b.similarityScore ≤ a.similarityScore)
        (findComparableCases t hist minSim maxR) ∧
    (∀ c ∈ findComparableCases t hist minSim maxR, minSim ≤ c.similarityScore) ∧
    (findComparableCases t hist minSim maxR).length ≤ maxR ∧
    defaultMinSimilarity = 0.3 ∧ defaultMaxResults = 10 := by
  by_cases hh : hist = []
  · simp [findComparableCases, hh, defaultMinSimilarity, defaultMaxResults]
  · have hunf : findComparableCases t hist minSim maxR =
        ((hist.filterMap (fun h =>
            let s := caseSimilarity t h.features
            if minSim ≤ s then some (buildComparable h s) else none)).insertionSort
          (fun a b => b.similarityScore ≤ a.similarityScore)).take maxR := by
      simp only [findComparableCases, if_neg hh]
    haveI : IsTotal ComparableCase (fun a b => b.similarityScore ≤ a.similarityScore) :=
      ⟨fun a b => le_total _ _⟩
    haveI : IsTrans ComparableCase (fun a b => b.similarityScore ≤ a.similarityScore) :=
      ⟨fun _ _ _ hab hbc => le_trans hbc hab⟩
    refine ⟨?_, ?_, ?_, rfl, rfl⟩
    · rw [hunf]
      exact (List.sorted_insertionSort _ _).sublist (List.take_sublist _ _)
    · intro c hc
      rw [hunf] at hc
      have hc2 : c ∈ hist.filterMap (fun h =>
          let s := caseSimilarity t h.features
          if minSim ≤ s then some (buildComparable h s) else none) :=
        (List.perm_insertionSort _ _).subset (List.take_subset _ _ hc)
      rw [List.mem_filterMap] at hc2
      obtain ⟨h, _, heq⟩ := hc2
      simp only at heq
      split at heq
      · cases heq
        simpa [buildComparable] using by assumption
      · exact absurd heq (by simp)
    · rw [hunf]
      exact List.length_take_le _ _

theorem claim_C7_ranking_amended_witness :
    defaultMinSimilarity ≤ (buildComparable exEntryLow 1).similarityScore :=
  (claim_C7_ranking_amended exFeatures [exEntryLow, exEntryHigh] defaultMinSimilarity
    defaultMaxResults).2.1 (buildComparable exEntryLow 1) (by rw [find_two_eval]; simp)

/-- The settlement statistics of the twelve-case fixture: mean 5000, upper
median 7000, population variance 4000000 (std 2000, coefficient of variation
0.4), min 3000, max 7000. -/
theorem settlementStats_twelve :
    settlementStatsOf twelveComparables = some ⟨5000, 7000, 4000000, 3000, 7000⟩ := by
  have hpos : positiveSettlements twelveComparables =
      [3000, 3000, 3000, 3000, 3000, 3000, 7000, 7000, 7000, 7000, 7000, 7000] := by
    norm_num [positiveSettlements, twelveComparables, mkComp]
  simp only [settlementStatsOf, hpos]
  rw [if_neg (by simp)]
  norm_num [listMean, sortedAsc, List.insertionSort, List.orderedInsert, listMin, listMax]

/-- The confidence score of the twelve-case fixture is 85: 30 for the case
count, 30 for the average similarity 0.8, 25 for the coefficient of
variation 0.4, and no recency bonus. -/
theorem confidenceScore_twelve :
    confidenceScore twelveComparables (settlementStatsOf twelveComparables) = 85 := by
  rw [settlementStats_twelve]
  norm_num [confidenceScore, twelveComparables, mkComp, hasCaseAgeDaysAttr]

/-- Claim C3, counterexample: for twelve comparables with average similarity
0.8, coefficient of variation 0.4 and equal-similarity recent settlements,
the additive confidence score is 85, not the claimed 30+30+25+15 = 100: the
recency bonus never fires because ComparableCase has no case_age_days
attribute.  The grade is still high. -/
theorem claim_C3_confidence_counterexample :
    confidenceScore twelveComparables (settlementStatsOf twelveComparables) ≠
        30 + 30 + 25 + 15 ∧
      confidenceScore twelveComparables (settlementStatsOf twelveComparables) = 85 ∧
      predictionConfidenceGrade twelveComparables (settlementStatsOf twelveComparables) =
        .high := by
  refine ⟨by rw [confidenceScore_twelve]; norm_num, confidenceScore_twelve, ?_⟩
  rw [predictionConfidenceGrade, if_neg (by simp [twelveComparables]),
    if_pos (by rw [confidenceScore_twelve]; norm_num)]

/-- Claim C3, amended: for every nonempty list of comparable cases the grade
is the additive score with the count bonus (30/20/10 at 10/5/3), the average
similarity bonus (30/20/10 at 0.7/0.5/0.3) and the coefficient of variation
bonus (25/15/5, applied only when the standard deviation is positive, not
merely when the mean is nonzero); the +15 recency bonus never applies, since
the ComparableCase record has no case_age_days attribute; the grade is high
at a score of at least 80, low below 50; the twelve-case example scores 85
and still grades high. -/
theorem claim_C3_confidence_amended :
    (∀ (cases : List ComparableCase) (stats : Option SettlementStats), cases ≠ [] →
      cases.countP hasCaseAgeDaysAttr = 0 ∧
      confidenceScore cases stats =
        (if 10 ≤ cases.length then (30:ℚ) else if 5 ≤ cases.length then 20
          else if 3 ≤ cases.length then 10 else 0) +
        (if 0.7 ≤ (cases.map (·.similarityScore)).sum / cases.length then (30:ℚ)
          else if 0.5 ≤ (cases.map (·.similarityScore)).sum / cases.length then 20
          else if 0.3 ≤ (cases.map (·.similarityScore)).sum / cases.length then 10 else 0) +
        (match stats with
          | none => 0
          | some s =>
              if 0 < s.variance then
                if 4 * s.variance ≤ s.mean ^ 2 then (25:ℚ)
                else if s.variance ≤ s.mean ^ 2 then 15 else 5
              else 0) ∧
      (predictionConfidenceGrade cases stats = .high ↔ 80 ≤ confidenceScore cases stats) ∧
      (predictionConfidenceGrade cases stats = .low ↔ confidenceScore cases stats < 50)) ∧
    predictionConfidenceGrade [] none = .low ∧
    confidenceScore twelveComparables (settlementStatsOf twelveComparables) = 85 ∧
    predictionConfidenceGrade twelveComparables (settlementStatsOf twelveComparables) =
      .high := by
  refine ⟨fun cases stats h => ?_, rfl, confidenceScore_twelve, ?_⟩
  · have hcount : cases.countP hasCaseAgeDaysAttr = 0 :=
      List.countP_eq_zero.mpr (fun a _ => by simp [hasCaseAgeDaysAttr])
    have hlen : (1:ℚ) ≤ cases.length := by
      exact_mod_cast Nat.one_le_iff_ne_zero.mpr (fun hz => h (List.length_eq_zero.mp hz))
    have hno : ¬ ((cases.length : ℚ) * 0.7 ≤ (cases.countP hasCaseAgeDaysAttr : ℚ)) := by
      rw [hcount]
      push_cast
      nlinarith
    refine ⟨hcount, ?_, ?_, ?_⟩
    · simp only [confidenceScore]
      rw [if_neg hno, add_zero]
    · rw [predictionConfidenceGrade, if_neg h]
      split_ifs with h80 h50
      · simp [h80]
      · simp only [reduceCtorEq, false_iff]
        intro hcon
        exact h80 hcon
      · simp only [reduceCtorEq, false_iff]
        intro hcon
        exact h80 hcon
    · rw [predictionConfidenceGrade, if_neg h]
      split_ifs with h80 h50
      · simp only [reduceCtorEq, false_iff, not_lt]
        linarith
      · simp only [reduceCtorEq, false_iff, not_lt]
        linarith
      · simp only [true_iff]
        linarith
  · rw [predictionConfidenceGrade, if_neg (by simp [twelveComparables]),
      if_pos (by rw [confidenceScore_twelve]; norm_num)]

theorem claim_C3_confidence_amended_witness :
    twelveComparables.countP hasCaseAgeDaysAttr = 0 ∧
      (predictionConfidenceGrade twelveComparables (settlementStatsOf twelveComparables) =
          .high ↔
        80 ≤ confidenceScore twelveComparables (settlementStatsOf twelveComparables)) :=
  ⟨(claim_C3_confidence_amended.1 twelveComparables (settlementStatsOf twelveComparables)
      (by simp [twelveComparables])).1,
    (claim_C3_confidence_amended.1 twelveComparables (settlementStatsOf twelveComparables)
      (by simp [twelveComparables])).2.2.1⟩

/-- Claim C4, counterexample: on the even-length settlement list
[10000, 20000] the source computes sorted[len // 2] = 20000, which is not
the median 15000 of the two values. -/
theorem claim_C4_outcome_stats_counterexample :
    (settlementStatsOf twoComparables).map SettlementStats.median = some 20000 ∧
      ((10000:ℚ) + 20000) / 2 = 15000 ∧ (20000:ℚ) ≠ 15000 := by
  have hpos : positiveSettlements twoComparables = [10000, 20000] := by
    norm_num [positiveSettlements, twoComparables, mkComp]
  refine ⟨?_, by norm_num, by norm_num⟩
  simp only [settlementStatsOf, hpos]
  rw [if_neg (by simp)]
  norm_num [sortedAsc, List.insertionSort, List.orderedInsert]

/-- The settlement statistics of the three-case fixture: mean 20000, median
20000, population variance (10000 squared + 0 + 10000 squared)/3, min 10000,
max 30000. -/
theorem settlementStats_three :
    settlementStatsOf threeComparables =
      some ⟨20000, 20000, (10000 ^ 2 + 0 ^ 2 + 10000 ^ 2) / 3, 10000, 30000⟩ := by
  have hpos : positiveSettlements threeComparables = [10000, 20000, 30000] := by
    norm_num [positiveSettlements, threeComparables, mkComp]
  simp only [settlementStatsOf, hpos]
  rw [if_neg (by simp)]
  norm_num [listMean, sortedAsc, List.insertionSort, List.orderedInsert, listMin, listMax]

/-- Claim C4, amended: the outcome aggregation computes mean, the upper
median sorted[N // 2] (the true median only for odd N), population variance
(dividing by N, not N-1), min and max over the positive settlements only;
with no positive settlement the statistics are absent and the estimated
range collapses to (0, 0); the example [10000, 20000, 30000] gives mean
20000, median 20000, variance (10000 squared + 0 + 10000 squared)/3 with
standard deviation Real.sqrt of it, strictly between 8164 and 8165, and the
estimated range is [mean - std, mean + std] (the clamp at 0 not binding). -/
theorem claim_C4_outcome_stats_amended :
    (∀ cases : List ComparableCase,
      settlementStatsOf cases = none ↔ positiveSettlements cases = []) ∧
    (∀ (cases : List ComparableCase) (s : SettlementStats),
      settlementStatsOf cases = some s →
        s.mean = (positiveSettlements cases).sum / ((positiveSettlements cases).length : ℚ) ∧
        s.median =
          (sortedAsc (positiveSettlements cases)).getD
            ((positiveSettlements cases).length / 2) 0 ∧
        s.variance =
          ((positiveSettlements cases).map (fun x => (x - s.mean) ^ 2)).sum /
            ((positiveSettlements cases).length : ℚ) ∧
        s.sMin = listMin (positiveSettlements cases) ∧
        s.sMax = listMax (positiveSettlements cases)) ∧
    (∀ (cases : List ComparableCase) (std : ℝ), positiveSettlements cases = [] →
      analysisRange (analyzeOutcomes cases) std = (0, 0)) ∧
    (settlementStatsOf threeComparables =
        some ⟨20000, 20000, (10000 ^ 2 + 0 ^ 2 + 10000 ^ 2) / 3, 10000, 30000⟩ ∧
      (∀ std : ℝ,
        IsStd (⟨20000, 20000, (10000 ^ 2 + 0 ^ 2 + 10000 ^ 2) / 3, 10000, 30000⟩ :
            SettlementStats) std →
          std = Real.sqrt (((10000 ^ 2 + 0 ^ 2 + 10000 ^ 2) / 3 : ℚ) : ℝ) ∧
          8164 < std ∧ std < 8165 ∧
          (∀ o : OutcomeAnalysis,
            o.stats =
              some ⟨20000, 20000, (10000 ^ 2 + 0 ^ 2 + 10000 ^ 2) / 3, 10000, 30000⟩ →
            analysisRange o std = (20000 - std, 20000 + std)))) := by
  refine ⟨fun cases => ?_, fun cases s hs => ?_, fun cases std hp => ?_,
    settlementStats_three, fun std hstd => ?_⟩
  · simp only [settlementStatsOf]
    split_ifs with hp
    · simp [hp]
    · simp [hp]
  · simp only [settlementStatsOf] at hs
    by_cases hp : positiveSettlements cases = []
    · rw [if_pos hp] at hs
      exact absurd hs (by simp)
    · rw [if_neg hp] at hs
      injection hs with hs
      subst hs
      exact ⟨rfl, rfl, rfl, rfl, rfl⟩
  · have hstats : (analyzeOutcomes cases).stats = none := by
      by_cases hc : cases = []
      · simp [analyzeOutcomes, hc]
      · simp only [analyzeOutcomes, if_neg hc]
        simp [settlementStatsOf, hp]
    simp [analysisRange, hstats]
  · obtain ⟨hnn, hsq⟩ := hstd
    have hvar : (0:ℝ) ≤ (((10000 ^ 2 + 0 ^ 2 + 10000 ^ 2) / 3 : ℚ) : ℝ) := by norm_num
    have heq : std = Real.sqrt (((10000 ^ 2 + 0 ^ 2 + 10000 ^ 2) / 3 : ℚ) : ℝ) :=
      ((Real.sqrt_eq_iff_eq_sq hvar hnn).mpr hsq.symm).symm
    have hlb : (8164:ℝ) < std := by
      rw [heq, show (8164:ℝ) = Real.sqrt (8164 ^ 2) from
        (Real.sqrt_sq (by norm_num)).symm]
      apply Real.sqrt_lt_sqrt (by norm_num)
      norm_num
    have hub : std < 8165 := by
      rw [heq]
      rw [Real.sqrt_lt' (by norm_num)]
      norm_num
    refine ⟨heq, hlb, hub, fun o ho => ?_⟩
    simp only [analysisRange, ho]
    have : max (0:ℝ) (((20000:ℚ):ℝ) - std) = ((20000:ℚ):ℝ) - std := by
      rw [max_eq_right]
      push_cast
      linarith
    rw [this]
    push_cast
    rfl


theorem claim_C4_outcome_stats_amended_witness :
    (settlementStatsOf twoComparables = none ↔ positiveSettlements twoComparables = []) ∧
      (8164:ℝ) < Real.sqrt (((10000 ^ 2 + 0 ^ 2 + 10000 ^ 2) / 3 : ℚ) : ℝ) :=
  ⟨claim_C4_outcome_stats_amended.1 twoComparables,
    (claim_C4_outcome_stats_amended.2.2.2.2
      (Real.sqrt (((10000 ^ 2 + 0 ^ 2 + 10000 ^ 2) / 3 : ℚ) : ℝ))
      ⟨Real.sqrt_nonneg _, Real.sq_sqrt (by norm_num)⟩).2.1⟩

/-- The settlement statistics of the five-case fixture [1, 1, 1, 1, 101]:
mean 21, median 1, population variance 1600 (std 40, larger than the mean),
min 1, max 101. -/
theorem settlementStats_five :
    settlementStatsOf fiveComparables = some ⟨21, 1, 1600, 1, 101⟩ := by
  have hpos : positiveSettlements fiveComparables = [1, 1, 1, 1, 101] := by
    norm_num [positiveSettlements, fiveComparables, mkComp]
  simp only [settlementStatsOf, hpos]
  rw [if_neg (by simp)]
  norm_num [listMean, sortedAsc, List.insertionSort, List.orderedInsert, listMin, listMax]

/-- The outcome analysis of the five-case fixture carries the statistics
above. -/
theorem analyzeStats_five :
    (analyzeOutcomes fiveComparables).stats = some ⟨21, 1, 1600, 1, 101⟩ := by
  rw [show (analyzeOutcomes fiveComparables).stats = settlementStatsOf fiveComparables by
    simp [analyzeOutcomes, fiveComparables]]
  exact settlementStats_five

/-- Claim C6, counterexample: with settlements [1, 1, 1, 1, 101] (mean 21,
std 40) and a positive external estimate with midpoint 100, the base
estimate is 0.6 times the midpoint of the clamped range (30.5), giving 58.3,
not 0.6 times the settlement mean plus 0.4 times the external midpoint
(52.6). -/
theorem claim_C6_valuation_counterexample :
    IsStd (⟨21, 1, 1600, 1, 101⟩ : SettlementStats) (40:ℚ) ∧
      (analyzeOutcomes fiveComparables).stats = some ⟨21, 1, 1600, 1, 101⟩ ∧
      baseEstimate (analyzeOutcomes fiveComparables) (40:ℚ) 50 150 (some "Auto Accident") =
        58.3 ∧
      (58.3:ℚ) ≠ 0.6 * 21 + 0.4 * ((50 + 150) / 2) := by
  have hr : analysisRange (analyzeOutcomes fiveComparables) (40:ℚ) = (0, 61) := by
    simp only [analysisRange, analyzeStats_five]
    norm_num
  refine ⟨⟨by norm_num, by norm_num⟩, analyzeStats_five, ?_, by norm_num⟩
  simp only [baseEstimate, comparableMean, aiMean, hr]
  norm_num

/-- Claim C6, amended: the base estimate blends 0.6 times the midpoint of
the estimated settlement range (this midpoint equals the comparable-case
settlement mean exactly when the standard deviation does not exceed the
mean, the clamp at 0 raising it otherwise) with 0.4 times the external
midpoint when both are positive; when only one is positive it equals that
one; when neither is positive it equals the per case type default table
value (Auto Accident 45000, Slip and Fall 35000, Medical Malpractice 125000,
Workers Compensation 25000, Product Liability 85000, anything else 50000);
the risk adjusted value is the base estimate times success probability times
the case strength adjustment (1.1 stronger, 0.9 weaker, else 1.0), and the
confidence range is [value times 0.7, value times 1.3]. -/
theorem claim_C6_valuation_amended {α : Type} [LinearOrderedField α] [FloorRing α] :
    (∀ (o : OutcomeAnalysis) (std aiLow aiHigh : α) (rs : String) (ct : Option String),
      riskAdjustedValue o std aiLow aiHigh rs ct =
        baseEstimate o std aiLow aiHigh ct * (riskMultiplier o rs : α) ∧
      confidenceRange o std aiLow aiHigh rs ct =
        (riskAdjustedValue o std aiLow aiHigh rs ct * (7/10),
          riskAdjustedValue o std aiLow aiHigh rs ct * (13/10)) ∧
      valuationEstimatedValue o std aiLow aiHigh rs ct =
        roundTo 2 (riskAdjustedValue o std aiLow aiHigh rs ct)) ∧
    (strengthMultiplier "stronger" = 1.1 ∧ strengthMultiplier "weaker" = 0.9 ∧
      (∀ s : String, s ≠ "stronger" → s ≠ "weaker" → strengthMultiplier s = 1)) ∧
    (∀ (o : OutcomeAnalysis) (std aiLow aiHigh : α) (ct : Option String),
      (0 < comparableMean o std → 0 < aiMean aiLow aiHigh →
        baseEstimate o std aiLow aiHigh ct =
          comparableMean o std * (6/10) + aiMean aiLow aiHigh * (4/10)) ∧
      (0 < comparableMean o std → aiMean aiLow aiHigh ≤ 0 →
        baseEstimate o std aiLow aiHigh ct = comparableMean o std) ∧
      (comparableMean o std ≤ 0 → 0 < aiMean aiLow aiHigh →
        baseEstimate o std aiLow aiHigh ct = aiMean aiLow aiHigh) ∧
      (comparableMean o std ≤ 0 → aiMean aiLow aiHigh ≤ 0 →
        baseEstimate o std aiLow aiHigh ct =
          (caseTypeAverage (ct.getD "Auto Accident") : α))) ∧
    (∀ (o : OutcomeAnalysis) (s : SettlementStats) (std : α),
      o.stats = some s → 0 ≤ std → std ≤ (s.mean : α) → comparableMean o std = s.mean) ∧
    (caseTypeAverage "Auto Accident" = 45000 ∧ caseTypeAverage "Slip and Fall" = 35000 ∧
      caseTypeAverage "Medical Malpractice" = 125000 ∧
      caseTypeAverage "Workers Compensation" = 25000 ∧
      caseTypeAverage "Product Liability" = 85000 ∧
      (∀ n : String, n ≠ "Auto Accident" → n ≠ "Slip and Fall" →
        n ≠ "Medical Malpractice" → n ≠ "Workers Compensation" →
        n ≠ "Product Liability" → caseTypeAverage n = 50000)) := by
  refine ⟨fun o std aiLow aiHigh rs ct => ⟨rfl, rfl, rfl⟩, ?_, fun o std aiLow aiHigh ct => ?_,
    fun o s std ho h0 hm => ?_, ?_⟩
  · refine ⟨by norm_num [strengthMultiplier],
      by simp only [strengthMultiplier, String.reduceEq]; norm_num, fun s h1 h2 => ?_⟩
    simp only [strengthMultiplier, if_neg h1, if_neg h2]
  · refine ⟨fun h1 h2 => ?_, fun h1 h2 => ?_, fun h1 h2 => ?_, fun h1 h2 => ?_⟩
    · simp only [baseEstimate, if_pos (And.intro h1 h2)]
    · rw [baseEstimate, if_neg (fun hc => absurd hc.2 (not_lt.mpr h2)), if_pos h1]
    · rw [baseEstimate, if_neg (fun hc => absurd hc.1 (not_lt.mpr h1)),
        if_neg (not_lt.mpr h1), if_pos h2]
    · rw [baseEstimate, if_neg (fun hc => absurd hc.1 (not_lt.mpr h1)),
        if_neg (not_lt.mpr h1), if_neg (not_lt.mpr h2)]
  · simp only [comparableMean, analysisRange, ho]
    rw [max_eq_right (by linarith)]
    ring
  · refine ⟨by norm_num [caseTypeAverage],
      by simp only [caseTypeAverage, String.reduceEq]; norm_num,
      by simp only [caseTypeAverage, String.reduceEq]; norm_num,
      by simp only [caseTypeAverage, String.reduceEq]; norm_num,
      by simp only [caseTypeAverage, String.reduceEq]; norm_num, fun n h1 h2 h3 h4 h5 => ?_⟩
    simp only [caseTypeAverage, if_neg h1, if_neg h2, if_neg h3, if_neg h4, if_neg h5]

theorem claim_C6_valuation_amended_witness :
    comparableMean (analyzeOutcomes fiveComparables) (10:ℚ) = 21 ∧
      baseEstimate (analyzeOutcomes fiveComparables) (40:ℚ) 50 150 (some "Auto Accident") =
        comparableMean (analyzeOutcomes fiveComparables) (40:ℚ) * (6/10) +
          aiMean (50:ℚ) 150 * (4/10) := by
  constructor
  · exact (claim_C6_valuation_amended (α := ℚ)).2.2.2.1 (analyzeOutcomes fiveComparables)
      ⟨21, 1, 1600, 1, 101⟩ 10 analyzeStats_five (by norm_num) (by norm_num)
  · refine ((claim_C6_valuation_amended (α := ℚ)).2.2.1 (analyzeOutcomes fiveComparables)
      40 50 150 (some "Auto Accident")).1 ?_ (by norm_num [aiMean])
    have hr : analysisRange (analyzeOutcomes fiveComparables) (40:ℚ) = (0, 61) := by
      simp only [analysisRange, analyzeStats_five]
      norm_num
    simp only [comparableMean, hr]
    norm_num

/-- Claim C8, counterexample: on an empty comparable list the valuation
report is the explicit no-data object carrying no estimated value at all:
the per case type default table value (45000 for Auto Accident) is not
produced. -/
theorem claim_C8_empty_corpus_counterexample :
    generateCaseValuationReport (some "Auto Accident") ([] : List ComparableCase) (0:ℚ) 0 0
        "similar" = .noData ∧
      reportValue (generateCaseValuationReport (some "Auto Accident")
        ([] : List ComparableCase) (0:ℚ) 0 0 "similar") = none ∧
      (none : Option ℚ) ≠ some 45000 := by
  refine ⟨rfl, rfl, by simp⟩

/-- Claim C8, amended: on an empty historical corpus, or when no candidate
reaches the similarity threshold, no exception is raised: the comparable
list is empty, the outcome analysis reports confidence low with success
probability 0.5, and the valuation report is the explicit no-data object
with confidence none; the per case type default table is consulted only
inside the risk adjusted valuation, when comparables exist but neither the
comparable midpoint nor the external midpoint is positive. -/
theorem claim_C8_empty_corpus_amended :
    (∀ (t : CaseFeatures) (minSim : ℚ) (maxR : ℕ),
      findComparableCases t [] minSim maxR = []) ∧
    (∀ (t : CaseFeatures) (hist : List HistoricalEntry) (minSim : ℚ) (maxR : ℕ),
      (∀ h ∈ hist, caseSimilarity t h.features < minSim) →
      findComparableCases t hist minSim maxR = []) ∧
    analyzeOutcomes [] = ⟨.low, none, 0.5, 18, 0⟩ ∧
    (∀ (ct : Option String) (std aiLow aiHigh : ℚ) (rs : String),
      generateCaseValuationReport ct [] std aiLow aiHigh rs = .noData) ∧
    (∀ (o : OutcomeAnalysis) (std aiLow aiHigh : ℚ) (ct : Option String),
      comparableMean o std ≤ 0 → aiMean aiLow aiHigh ≤ 0 →
      baseEstimate o std aiLow aiHigh ct = (caseTypeAverage (ct.getD "Auto Accident") : ℚ)) := by
  refine ⟨fun t minSim maxR => rfl, fun t hist minSim maxR hall => ?_, rfl,
    fun ct std aiLow aiHigh rs => rfl, fun o std aiLow aiHigh ct h1 h2 => ?_⟩
  · by_cases hh : hist = []
    · simp [findComparableCases, hh]
    · simp only [findComparableCases, if_neg hh]
      have hnil : hist.filterMap (fun h =>
          let s := caseSimilarity t h.features
          if minSim ≤ s then some (buildComparable h s) else none) = [] := by
        rw [List.filterMap_eq_nil_iff]
        intro h hm
        simp only
        rw [if_neg (not_le.mpr (hall h hm))]
      rw [hnil]
      simp
  · rw [baseEstimate, if_neg (fun hc => absurd hc.1 (not_lt.mpr h1)),
      if_neg (not_lt.mpr h1), if_neg (not_lt.mpr h2)]
    norm_num

theorem claim_C8_empty_corpus_amended_witness :
    findComparableCases exFeatures [exEntryLow] 2 10 = [] ∧
      baseEstimate (analyzeOutcomes []) (0:ℚ) 0 0 (some "Slip and Fall") =
        (caseTypeAverage ((some "Slip and Fall").getD "Auto Accident") : ℚ) := by
  constructor
  · refine claim_C8_empty_corpus_amended.2.1 exFeatures [exEntryLow] 2 10 ?_
    intro h hm
    simp only [List.mem_singleton] at hm
    subst hm
    rw [show exEntryLow.features = exFeatures from rfl,
      caseSimilarity_self exFeatures (by decide)]
    norm_num
  · refine claim_C8_empty_corpus_amended.2.2.2.2 (analyzeOutcomes []) 0 0 0
      (some "Slip and Fall") ?_ ?_
    · simp [comparableMean, analysisRange, analyzeOutcomes]
    · simp [aiMean]

/-- Claim C5, counterexample: the combined risk score is the weighted
combination rounded to one decimal place, so with seven external sub-scores
[0,0,0,0,0,0,1] and the rule scores of the empty record the returned overall
(28.6) differs from the raw formula value (2001/70). -/
theorem claim_C5_risk_combination_counterexample :
    combineRiskOverall [0, 0, 0, 0, 0, 0, 1]
        (ruleBasedRiskScores ⟨none, 0, .missing, false, false, false, false, false⟩ 0) ≠
      ([0, 0, 0, 0, 0, 0, 1] : List ℚ).sum / ([0, 0, 0, 0, 0, 0, 1] : List ℚ).length * 0.6 +
        (ruleBasedRiskScores ⟨none, 0, .missing, false, false, false, false, false⟩ 0).sum /
          (ruleBasedRiskScores ⟨none, 0, .missing, false, false, false, false, false⟩ 0).length * 0.4 := by
  have hr : ruleBasedRiskScores ⟨none, 0, .missing, false, false, false, false, false⟩ 0 =
      [50, 70, 65, 100] := by
    simp only [ruleBasedRiskScores, caseTypeRiskScore, caseTypeWeight, financialRiskScore,
      timeRiskScore, infoRiskScore, providedFieldCount, String.reduceEq, Option.getD]
    norm_num
  rw [hr]
  have hc : combineRiskOverall [0, 0, 0, 0, 0, 0, 1] [50, 70, 65, 100] = 28.6 := by
    have : combineRiskOverall [0, 0, 0, 0, 0, 0, 1] [50, 70, 65, 100] =
        roundTo 1 (2001/70 : ℚ) := by
      simp [combineRiskOverall]
      norm_num
    rw [this, roundTo_eq_div_succ 1 (2001/70 : ℚ) 285 (by norm_num) (by norm_num)]
    norm_num
  rw [hc]
  norm_num

/-- Claim C5, amended: the overall risk score equals the weighted combination
(0.6 times the external average, defaulting to 50 when no external sub-scores
exist, plus 0.4 times the rule based average) rounded to one decimal place;
in particular the empty record (requested amount 0, no incident date, zero of
six required fields) gets rule scores case type 50 (base table), financial
70, time 65, information completeness 100, and with no external sub-scores
the overall is 58.5, strictly between 50 and 100. -/
theorem claim_C5_risk_combination_amended :
    (∀ ext rules : List ℚ, ext ≠ [] → rules ≠ [] →
      combineRiskOverall ext rules =
        roundTo 1 (ext.sum / ext.length * 0.6 + rules.sum / rules.length * 0.4)) ∧
    (∀ rules : List ℚ, rules ≠ [] →
      combineRiskOverall [] rules =
        roundTo 1 (50 * 0.6 + rules.sum / rules.length * 0.4)) ∧
    (∀ today : ℤ,
      ruleBasedRiskScores ⟨none, 0, .missing, false, false, false, false, false⟩ today =
        [50, 70, 65, 100]) ∧
    (combineRiskOverall []
        (ruleBasedRiskScores ⟨none, 0, .missing, false, false, false, false, false⟩ 0) = 58.5 ∧
      50 < combineRiskOverall []
        (ruleBasedRiskScores ⟨none, 0, .missing, false, false, false, false, false⟩ 0) ∧
      combineRiskOverall []
        (ruleBasedRiskScores ⟨none, 0, .missing, false, false, false, false, false⟩ 0) < 100) := by
  have hcomb : ∀ today : ℤ,
      ruleBasedRiskScores ⟨none, 0, .missing, false, false, false, false, false⟩ today =
        [50, 70, 65, 100] := by
    intro today
    simp only [ruleBasedRiskScores, caseTypeRiskScore, caseTypeWeight, financialRiskScore,
      timeRiskScore, infoRiskScore, providedFieldCount, String.reduceEq, Option.getD]
    norm_num
  have hval : combineRiskOverall []
      (ruleBasedRiskScores ⟨none, 0, .missing, false, false, false, false, false⟩ 0) = 58.5 := by
    rw [hcomb 0]
    have : combineRiskOverall [] [50, 70, 65, 100] = roundTo 1 (58.5 : ℚ) := by
      simp [combineRiskOverall]
      norm_num
    rw [this, roundTo_of_int 1 (58.5 : ℚ) 585 (by norm_num)]
    norm_num
  refine ⟨fun ext rules h1 h2 => ?_, fun rules h2 => ?_, hcomb, hval, ?_, ?_⟩
  · simp only [combineRiskOverall, if_neg h1, if_neg h2]
  · simp [combineRiskOverall, if_neg h2]
  · rw [hval]; norm_num
  · rw [hval]; norm_num

theorem claim_C5_risk_combination_amended_witness :
    combineRiskOverall [50] [50] =
      roundTo 1 (([50] : List ℚ).sum / ([50] : List ℚ).length * 0.6 +
        ([50] : List ℚ).sum / ([50] : List ℚ).length * 0.4) :=
  claim_C5_risk_combination_amended.1 [50] [50] (by simp) (by simp)

/-- Claim C9, counterexample: the rule based risk scorer and the case age
computation read the clock, so two calls with identical record inputs at two
different clock values give different outputs (29 versus 30 days after the
incident moves time_risk from 40 to 30). -/
theorem claim_C9_determinism_counterexample :
    ruleBasedRiskScores ⟨none, 0, .onDay 0, false, false, false, false, false⟩ 29 ≠
        ruleBasedRiskScores ⟨none, 0, .onDay 0, false, false, false, false, false⟩ 30 ∧
      calculateCaseAge (.onDay 0) 1 ≠ calculateCaseAge (.onDay 0) 2 := by
  constructor
  · have h29 : ruleBasedRiskScores ⟨none, 0, .onDay 0, false, false, false, false, false⟩ 29 =
        [50, 70, 40, 100] := by
      simp only [ruleBasedRiskScores, caseTypeRiskScore, caseTypeWeight, financialRiskScore,
        timeRiskScore, infoRiskScore, providedFieldCount, String.reduceEq, Option.getD]
      norm_num
    have h30 : ruleBasedRiskScores ⟨none, 0, .onDay 0, false, false, false, false, false⟩ 30 =
        [50, 70, 30, 100] := by
      simp only [ruleBasedRiskScores, caseTypeRiskScore, caseTypeWeight, financialRiskScore,
        timeRiskScore, infoRiskScore, providedFieldCount, String.reduceEq, Option.getD]
      norm_num
    rw [h29, h30]
    simp
  · norm_num [calculateCaseAge]

/-- Claim C9, amended: every scoring function is deterministic given its
explicit inputs together with the current clock value; the similarity
calculation, outcome aggregation and decision synthesis take no clock input
at all, while the rule based risk scorer and the case age helper depend on
the clock exactly through the day difference (shift invariance). -/
theorem claim_C9_determinism_amended :
    (∀ (r : PlaintiffRecord) (d k today : ℤ),
      ruleBasedRiskScores
          ⟨r.caseType, r.requestedAmount, .onDay (d + k), r.firstName, r.lastName,
            r.phone, r.email, r.address⟩ (today + k) =
        ruleBasedRiskScores
          ⟨r.caseType, r.requestedAmount, .onDay d, r.firstName, r.lastName,
            r.phone, r.email, r.address⟩ today) ∧
    (∀ d k today : ℤ,
      calculateCaseAge (.onDay (d + k)) (today + k) = calculateCaseAge (.onDay d) today) ∧
    (∀ t h : CaseFeatures, caseSimilarity t h = caseSimilarity t h) ∧
    (∀ cases : List ComparableCase, analyzeOutcomes cases = analyzeOutcomes cases) ∧
    (∀ i : DecisionInput, decisionAndConfidence i = decisionAndConfidence i) := by
  refine ⟨fun r d k today => ?_, fun d k today => ?_, fun t h => rfl, fun cases => rfl,
    fun i => rfl⟩
  · simp only [ruleBasedRiskScores, caseTypeRiskScore, financialRiskScore, timeRiskScore,
      infoRiskScore, providedFieldCount]
    have : today + k - (d + k) = today - d := by ring
    rw [this]
  · simp only [calculateCaseAge]
    ring

end FundFlow
